import Mathlib

/-!
Verification development for the DFB expense-form scraper
(`src/scraper/dfb_scraper.py`, `src/utils/match_utils.py`, `src/core/errors.py`).

The Python sources are shallowly embedded: every browser interaction that can
observe page content is modelled by an explicit input value (a field that is
either invisible, visible with a text, or raises on read), and every Python
method becomes a Lean function over those inputs.  Exceptions are modelled with
`Except`; a Python `try/except` block becomes a `match` on the `Except` value.
Python string operations (`split`, `strip`, `replace`, `in`) are embedded as
structurally recursive functions on character lists so that they evaluate.
-/

namespace DFB

/-! ## Python string primitives -/

/-- Whitespace test used by Python's `str.split()` and `str.strip()`. -/
def pyIsSpace (c : Char) : Bool := c.isWhitespace

/-- Python's `s.split(maxsplit=fuel)`: split on runs of whitespace, at most
`fuel` splits; leading whitespace is skipped, and once the split budget is
exhausted the rest of the string (leading whitespace dropped) is the final
element.  Operates on the character list of the string. -/
def pySplitMax (fuel : Nat) (cs : List Char) : List String :=
  match cs.dropWhile pyIsSpace, fuel with
  | [], _ => []
  | c :: rest, 0 => [String.mk (c :: rest)]
  | c :: rest, f + 1 =>
      String.mk ((c :: rest).takeWhile (fun x => pyIsSpace x = false)) ::
        pySplitMax f ((c :: rest).dropWhile (fun x => pyIsSpace x = false))

/-- If `sep` is a prefix of `cs`, return the remainder after it. -/
def dropPrefixQ : List Char → List Char → Option (List Char)
  | [], cs => some cs
  | _ :: _, [] => none
  | s :: ss, c :: cc => if c = s then dropPrefixQ ss cc else none

/-- Worker for `pySplitSep`: `acc` is the current segment, reversed.  `fuel`
bounds the number of characters still to be consumed. -/
def pySplitSepAux (sep : List Char) : Nat → List Char → List Char → List String
  | 0, _, acc => [String.mk acc.reverse]
  | _ + 1, [], acc => [String.mk acc.reverse]
  | f + 1, c :: cc, acc =>
      match dropPrefixQ sep (c :: cc) with
      | some rest => String.mk acc.reverse :: pySplitSepAux sep f rest []
      | none => pySplitSepAux sep f cc (c :: acc)

/-- Python's `s.split(sep)` for a non-empty separator string: keeps empty
segments, so the result always has one more element than there are
separator occurrences. -/
def pySplitSep (sep : String) (s : String) : List String :=
  pySplitSepAux sep.data s.data.length s.data []

/-- Worker for `pyReplace`, fuel-bounded on the remaining characters. -/
def pyReplaceAux (old new : List Char) : Nat → List Char → List Char
  | 0, cs => cs
  | _ + 1, [] => []
  | f + 1, c :: cc =>
      match dropPrefixQ old (c :: cc) with
      | some rest => new ++ pyReplaceAux old new f rest
      | none => c :: pyReplaceAux old new f cc

/-- Python's `s.replace(old, new)` for a non-empty `old`. -/
def pyReplace (old new s : String) : String :=
  String.mk (pyReplaceAux old.data new.data s.data.length s.data)

/-- Python's `s.strip()`: drop leading and trailing whitespace. -/
def pyStrip (s : String) : String :=
  String.mk (((s.data.dropWhile pyIsSpace).reverse.dropWhile pyIsSpace).reverse)

/-- Python's `needle in hay` substring test, characterised through split:
the needle occurs in `hay` iff splitting on it produces at least two parts. -/
def strContains (hay needle : String) : Bool :=
  2 ≤ (pySplitSep needle hay).length

/-! ## `src/utils/match_utils.py` -/

/-- Embedding of `parse_anpfiff` (match_utils.py lines 51-77): split the
kickoff string on the middle dot; with at least three parts return
(part 1 stripped, part 2 with "Uhr" removed and stripped), otherwise
return the original string and the empty string. -/
def parse_anpfiff (anpfiff_str : String) : String × String :=
  match pySplitSep "·" anpfiff_str with
  | _ :: p1 :: p2 :: _ => (pyStrip p1, pyStrip (pyReplace "Uhr" "" p2))
  | _ => (anpfiff_str, "")

/-! ## Referee header parsing (dfb_scraper.py lines 483-497) -/

/-- Embedding of the header-parsing block of `extract_referee_contacts`:
`header_text.split(maxsplit=2)`; with at least two parts and a recognised
role code, the role "SRA" with a following part consumes that part into the
role ("SRA 1") and the third part is the name; otherwise the first part is
the role and the rest joined by spaces is the name.  Returns `none` when the
code leaves `rolle` unset (fewer than two parts, or unknown role code). -/
def parseRefereeHeader (header_text : String) : Option (String × String) :=
  match pySplitMax 2 header_text.data with
  | p0 :: p1 :: rest =>
      if p0 = "SR" ∨ p0 = "SRA" ∨ p0 = "Beo" then
        if p0 = "SRA" ∧ rest ≠ [] then
          some (p0 ++ " " ++ p1, String.intercalate " " rest)
        else
          some (p0, String.intercalate " " (p1 :: rest))
      else none
  | _ => none

/-! ## Modal field model

A DOM field read inside a modal is modelled by `FieldRead`:
`none` means the element never became visible within its timeout (the guard
`is_visible(...)` returned false, so the field is skipped); `some (.ok t)`
means the element was visible and `inner_text()` returned `t`;
`some (.error e)` means the element was visible but reading it raised. -/
def FieldRead := Option (Except String String)

/-- Perform one guarded field read as the Python code does: skip when
invisible, strip the text when readable, propagate an exception. -/
def readField (fr : FieldRead) : Except String (Option String) :=
  match fr with
  | none => Except.ok none
  | some (Except.ok t) => Except.ok (some (pyStrip t))
  | some (Except.error e) => Except.error e

/-! ## `extract_match_info_from_modal` (dfb_scraper.py lines 347-423) -/

/-- The seven guarded reads performed inside the match-info modal. -/
structure MatchModal where
  ready : Option String
  anpfiff : FieldRead
  heim : FieldRead
  gast : FieldRead
  mannschaftsart : FieldRead
  spielklasse : FieldRead
  staffel : FieldRead
  spieltag : FieldRead

/-- The `match_info` dictionary: a key is absent when its guarded read was
skipped. -/
structure MatchInfoDict where
  anpfiff : Option String
  heim_team : Option String
  gast_team : Option String
  mannschaftsart : Option String
  spielklasse : Option String
  staffel : Option String
  spieltag : Option String
deriving DecidableEq, Repr

/-- The empty `match_info` dictionary (returned by the `except` branch). -/
def MatchInfoDict.empty : MatchInfoDict := ⟨none, none, none, none, none, none, none⟩

/-- Body of the `try` block of `extract_match_info_from_modal`: the reads run
in source order and the first raising read aborts the whole block. -/
def extract_match_info_core (m : MatchModal) : Except String MatchInfoDict :=
  match m.ready with
  | some e => Except.error e
  | none =>
  match readField m.anpfiff with
  | Except.error e => Except.error e
  | Except.ok a =>
  match readField m.heim with
  | Except.error e => Except.error e
  | Except.ok h =>
  match readField m.gast with
  | Except.error e => Except.error e
  | Except.ok g =>
  match readField m.mannschaftsart with
  | Except.error e => Except.error e
  | Except.ok ma =>
  match readField m.spielklasse with
  | Except.error e => Except.error e
  | Except.ok sk =>
  match readField m.staffel with
  | Except.error e => Except.error e
  | Except.ok st =>
  match readField m.spieltag with
  | Except.error e => Except.error e
  | Except.ok sp => Except.ok ⟨a, h, g, ma, sk, st, sp⟩

/-- `extract_match_info_from_modal`: any exception inside the block is caught
and the empty dictionary is returned. -/
def extract_match_info_from_modal (m : MatchModal) : MatchInfoDict :=
  match extract_match_info_core m with
  | Except.ok d => d
  | Except.error _ => MatchInfoDict.empty

/-! ## `extract_referee_contacts` (dfb_scraper.py lines 462-544) -/

/-- The guarded reads for one `referee-contact-details-list-item` block. -/
structure RefereeItem where
  header : FieldRead
  telefon : FieldRead
  email : FieldRead
  strasse : FieldRead
  plz_ort : FieldRead

/-- One `referee_data` dictionary; `rolle` and `name` are set together by the
header parse. -/
structure RefereeDict where
  rolle : Option String
  name : Option String
  telefon : Option String
  email : Option String
  strasse : Option String
  plz_ort : Option String
deriving DecidableEq, Repr

/-- Body of the inner per-referee `try` block: returns `some dict` when the
dictionary contains a `rolle` key (so the item is appended), `none` when it
does not, and an error when a read raised (the inner `except` then skips the
item). -/
def extract_referee_item_core (it : RefereeItem) : Except String (Option RefereeDict) :=
  match readField it.header with
  | Except.error e => Except.error e
  | Except.ok hd =>
  let rn := match hd with
            | some t => parseRefereeHeader t
            | none => none
  match readField it.telefon with
  | Except.error e => Except.error e
  | Except.ok tel =>
  match readField it.email with
  | Except.error e => Except.error e
  | Except.ok em =>
  match readField it.strasse with
  | Except.error e => Except.error e
  | Except.ok st =>
  match readField it.plz_ort with
  | Except.error e => Except.error e
  | Except.ok pl =>
  match rn with
  | some rnv => Except.ok (some ⟨some rnv.1, some rnv.2, tel, em, st, pl⟩)
  | none => Except.ok none

/-- `extract_referee_contacts`: when the modal-visibility wait raises, the
outer `except` returns the empty list; otherwise each item is processed under
its own `try`, a failing or role-less item is skipped, order is kept. -/
def extract_referee_contacts (modalReady : Option String) (items : List RefereeItem) :
    List RefereeDict :=
  match modalReady with
  | some _ => []
  | none =>
      items.foldr
        (fun it acc =>
          match extract_referee_item_core it with
          | Except.ok (some d) => d :: acc
          | _ => acc) []

/-! ## `extract_venue_info` (dfb_scraper.py lines 581-632) -/

/-- The guarded reads inside the venue modal.  `addressLines` are the texts of
the elements matching the five-digit-postcode pattern, scanned as fallback
when the primary address read is invisible. -/
structure VenueModal where
  ready : Option String
  subtitle : FieldRead
  geotagSpan : FieldRead
  addressDiv : FieldRead
  addressLines : List (Except String String)
  platzTyp : FieldRead

/-- The `venue_info` dictionary. -/
structure VenueDict where
  name : Option String
  adresse : Option String
  platz_typ : Option String
deriving DecidableEq, Repr

/-- The empty `venue_info` dictionary (returned by the `except` branch). -/
def VenueDict.empty : VenueDict := ⟨none, none, none⟩

/-- Fallback address scan: first line whose stripped text is longer than five
characters is taken; a raising read propagates. -/
def firstLongLine : List (Except String String) → Except String (Option String)
  | [] => Except.ok none
  | Except.error e :: _ => Except.error e
  | Except.ok t :: rest =>
      if 5 < (pyStrip t).length then Except.ok (some (pyStrip t)) else firstLongLine rest

/-- The name fallback of `extract_venue_info` (lines 600-605): when the
primary name is missing or empty (Python truthiness of
`venue_info.get('name')`), a visible fallback span overwrites it. -/
def venueName (n1 : Option String) (geo : FieldRead) : Except String (Option String) :=
  if n1.getD "" = "" then
    match readField geo with
    | Except.error e => Except.error e
    | Except.ok (some t) => Except.ok (some t)
    | Except.ok none => Except.ok n1
  else Except.ok n1

/-- The address lookup of `extract_venue_info` (lines 607-620): the primary
read, falling back to the postcode-line scan when it is invisible. -/
def venueAddress (ad : FieldRead) (lines : List (Except String String)) :
    Except String (Option String) :=
  match readField ad with
  | Except.error e => Except.error e
  | Except.ok (some t) => Except.ok (some t)
  | Except.ok none => firstLongLine lines

/-- Body of the `try` block of `extract_venue_info`: name with fallback,
address with fallback, then the pitch-type read, in source order. -/
def extract_venue_core (m : VenueModal) : Except String VenueDict :=
  match m.ready with
  | some e => Except.error e
  | none =>
  match readField m.subtitle with
  | Except.error e => Except.error e
  | Except.ok n1 =>
  match venueName n1 m.geotagSpan with
  | Except.error e => Except.error e
  | Except.ok n =>
  match venueAddress m.addressDiv m.addressLines with
  | Except.error e => Except.error e
  | Except.ok a =>
  match readField m.platzTyp with
  | Except.error e => Except.error e
  | Except.ok p => Except.ok ⟨n, a, p⟩

/-- `extract_venue_info`: any exception inside the block is caught and the
empty dictionary is returned. -/
def extract_venue_info (m : VenueModal) : VenueDict :=
  match extract_venue_core m with
  | Except.ok d => d
  | Except.error _ => VenueDict.empty

/-! ## Per-match processing and `scrape_all_matches` (dfb_scraper.py 634-685) -/

/-- Everything one loop iteration of `scrape_all_matches` can observe for one
match: the outcomes of the three modal-open calls (`some e` = the open raised
`e`) and the three modal contents.  `close_modal` swallows its own failures,
so it is not modelled as fallible. -/
structure MatchModals where
  openInfo : Option String
  info : MatchModal
  openRef : Option String
  refReady : Option String
  refItems : List RefereeItem
  openVenue : Option String
  venue : VenueModal

/-- One `match_data` dictionary as appended to `all_matches`. -/
structure MatchData where
  spiel_info : MatchInfoDict
  schiedsrichter : List RefereeDict
  spielstaette : VenueDict
deriving DecidableEq, Repr

/-- The record a fully processed match yields (the three extractors are each
total, so the record is a function of the modal contents). -/
def matchRecord (m : MatchModals) : MatchData :=
  ⟨extract_match_info_from_modal m.info,
   extract_referee_contacts m.refReady m.refItems,
   extract_venue_info m.venue⟩

/-- Body of the per-match `try` block (lines 653-677): open the info modal,
extract, close; open the referee modal, extract, close; open the venue modal,
extract, close; a raising open aborts the iteration with an error. -/
def processMatch (m : MatchModals) : Except String MatchData :=
  match m.openInfo with
  | some e => Except.error e
  | none =>
      let si := extract_match_info_from_modal m.info
      match m.openRef with
      | some e => Except.error e
      | none =>
          let refs := extract_referee_contacts m.refReady m.refItems
          match m.openVenue with
          | some e => Except.error e
          | none => Except.ok ⟨si, refs, extract_venue_info m.venue⟩

/-- The page as `scrape_all_matches` observes it: whether the first list item
ever became visible (the bounded wait in `get_all_matches`), and the list of
match containers with their modal contents. -/
structure ScrapePage where
  firstMatchAppears : Bool
  matchList : List MatchModals

/-- Embedding of `get_all_matches` (lines 256-278): wait for the first list
item — a timeout raises and the exception is re-raised — then count the
containers. -/
def get_all_matches (p : ScrapePage) : Except String Nat :=
  if p.firstMatchAppears then Except.ok p.matchList.length
  else Except.error "Fehler beim Sammeln der Spiele: Timeout"

/-- What one run of the scraping loop produces: the aggregated records, the
progress-callback invocations `(current, total, step)` in call order, and the
per-match error log lines. -/
structure ScrapeOut where
  records : List MatchData
  calls : List (Nat × Nat × String)
  logs : List String
deriving DecidableEq, Repr

/-- The loop of `scrape_all_matches` (lines 650-682) over the remaining
match entries, `i` being the current zero-based index: a successful iteration
appends its record and, when a callback is supplied, fires it with
`current = i + 1`; a failing iteration logs the error and continues without
firing the callback. -/
def scrapeLoop (hasCb : Bool) (total : Nat) : List MatchModals → Nat → ScrapeOut
  | [], _ => ⟨[], [], []⟩
  | m :: rest, i =>
      let tail := scrapeLoop hasCb total rest (i + 1)
      match processMatch m with
      | Except.ok d =>
          let call :=
            if hasCb then
              [(i + 1, total, "Scraping Spiel " ++ toString (i + 1) ++ "/" ++ toString total)]
            else []
          ⟨d :: tail.records, call ++ tail.calls, tail.logs⟩
      | Except.error e =>
          ⟨tail.records, tail.calls,
           ("Fehler bei Spiel " ++ toString (i + 1) ++ ": " ++ e) :: tail.logs⟩

/-- Embedding of `scrape_all_matches` (lines 634-685): enumerate the match entries —
an enumeration failure propagates — fire the initial callback with
`current = 0`, run the loop, and return the aggregate. -/
def scrape_all_matches (p : ScrapePage) (hasCb : Bool) : Except String ScrapeOut :=
  match get_all_matches p with
  | Except.error e => Except.error e
  | Except.ok n =>
      let initCall := if hasCb then [(0, n, "Scraping gestartet...")] else []
      let out := scrapeLoop hasCb n p.matchList 0
      Except.ok ⟨out.records, initCall ++ out.calls, out.logs⟩

/-! ## `login` (dfb_scraper.py lines 131-197) -/

/-- Outcome of the error-message probe of the login page: the element was not
visible, it was visible with a text, or probing/reading it raised. -/
inductive ErrCheck where
  | notVisible : ErrCheck
  | visibleText (t : String) : ErrCheck
  | checkRaised (e : String) : ErrCheck
deriving DecidableEq, Repr

/-- The page state `login` classifies after submitting the form and waiting. -/
structure LoginPageState where
  currentUrl : String
  errorCheck : ErrCheck
  passwordVisible : Bool

/-- How `login` can fail.  `credsInvalid portalMsg` is the
`DFBCredentialsInvalidError` raise: `some t` carries the portal's error text,
`none` is the argument-less generic raise.  Modelled from the spec: the class
`DFBCredentialsInvalidError` is imported from `core.errors` but its definition
is not in the sources; per the spec it carries the portal-supplied text when
available, else a generic message, which the model keeps abstract as `none`. -/
inductive LoginFailure where
  | credsInvalid (portalMsg : Option String) : LoginFailure
  | other (msg : String) : LoginFailure
deriving DecidableEq, Repr

/-- The inner `try` body of check 2 (lines 172-178): a visible error element
raises `DFBCredentialsInvalidError` with the portal text; a raising probe is
an ordinary exception. -/
def check_error_message (c : ErrCheck) : Except LoginFailure Unit :=
  match c with
  | ErrCheck.notVisible => Except.ok ()
  | ErrCheck.visibleText t =>
      Except.error (LoginFailure.credsInvalid (some ("DFBnet meldet: " ++ t)))
  | ErrCheck.checkRaised e => Except.error (LoginFailure.other e)

/-- Check 2 with its handlers (lines 179-182): `DFBCredentialsInvalidError`
is re-raised, every other exception is swallowed by the bare `except: pass`. -/
def check_error_wrapped (c : ErrCheck) : Except LoginFailure Unit :=
  match check_error_message c with
  | Except.error (LoginFailure.credsInvalid m) =>
      Except.error (LoginFailure.credsInvalid m)
  | _ => Except.ok ()

/-- The outcome classification of `login` (lines 162-191): check 1 succeeds
when the URL left the auth sub-domain; check 2 raises on a visible error
message; check 3 raises generically when the password field is still visible;
otherwise the login counts as successful. -/
def classify_login_response (st : LoginPageState) : Except LoginFailure Unit :=
  if strContains st.currentUrl "auth.dfbnet.org" = false then Except.ok ()
  else
    match check_error_wrapped st.errorCheck with
    | Except.error f => Except.error f
    | Except.ok () =>
        if st.passwordVisible then Except.error (LoginFailure.credsInvalid none)
        else Except.ok ()

/-- Everything `login` observes: the credentials it was given, the outcome of
the form steps (wait/fill/click), and the page state after submission. -/
structure LoginEnv where
  username : String
  password : String
  formSteps : Except String Unit
  afterSubmit : LoginPageState

/-- Embedding of `login` (lines 131-197): missing credentials raise a
`ValueError`; a failure in the form steps propagates as an ordinary
exception; otherwise the response is classified. -/
def login (env : LoginEnv) : Except LoginFailure Unit :=
  if env.username = "" ∨ env.password = "" then
    Except.error (LoginFailure.other "Username und Passwort muessen angegeben werden")
  else
    match env.formSteps with
    | Except.error e => Except.error (LoginFailure.other e)
    | Except.ok () => classify_login_response env.afterSubmit

/-! ## Session lifecycle (dfb_scraper.py lines 33-55 and 687-694) -/

/-- Whether the two OS-level resources of a scraper session are live. -/
structure ScraperState where
  playwrightRunning : Bool
  browserRunning : Bool
deriving DecidableEq, Repr

/-- Whether the two acquisition steps of `start` succeed. -/
structure SessionEnv where
  playwrightStartOk : Bool
  browserLaunchOk : Bool

/-- Embedding of `start` (lines 33-47): start the automation driver, then
launch the browser; a failing step raises, leaving behind whatever was
already acquired (`some e` is the raised exception). -/
def start (env : SessionEnv) (st : ScraperState) : ScraperState × Option String :=
  if env.playwrightStartOk = false then
    (st, some "sync_playwright start fehlgeschlagen")
  else
    let st1 : ScraperState := ⟨true, st.browserRunning⟩
    if env.browserLaunchOk = false then
      (st1, some "chromium launch fehlgeschlagen")
    else (⟨true, true⟩, none)

/-- Embedding of `stop` (lines 49-55): only when a browser handle exists does
it close the browser and stop the driver; otherwise it does nothing. -/
def stop (st : ScraperState) : ScraperState :=
  if st.browserRunning then ⟨false, false⟩ else st

/-- Python `with DFBScraper(...)` semantics over the model: `__enter__` runs
`start` — when it raises, the body and `__exit__` are skipped and the
exception propagates — otherwise the body runs and `__exit__` runs `stop` on
both the normal and the exceptional exit path, re-raising a body exception. -/
def withScraper (env : SessionEnv) (body : Except String Unit) :
    ScraperState × Option String :=
  match start env ⟨false, false⟩ with
  | (st, some e) => (st, some e)
  | (st, none) =>
      let st2 := stop st
      match body with
      | Except.ok () => (st2, none)
      | Except.error e => (st2, some e)

/-- Whether an embedded computation ran without raising. -/
def succeeds {ε α : Type} : Except ε α → Bool
  | Except.ok _ => true
  | Except.error _ => false

/-! ## Concrete page states used as witnesses -/

/-- A match-info modal in which no field ever becomes visible. -/
def emptyMatchModal : MatchModal := ⟨none, none, none, none, none, none, none, none⟩

/-- A venue modal in which no field ever becomes visible. -/
def emptyVenueModal : VenueModal := ⟨none, none, none, none, [], none⟩

/-- A match whose three modal-open steps succeed and whose modals are empty. -/
def okModals : MatchModals := ⟨none, emptyMatchModal, none, none, [], none, emptyVenueModal⟩

/-- A match whose first modal-open step raises. -/
def badModals : MatchModals :=
  ⟨some "Timeout beim Oeffnen des Modals", emptyMatchModal, none, none, [], none,
   emptyVenueModal⟩

/-! ## Helper lemmas about the scraping loop -/

theorem succeeds_ok {ε α : Type} {x : Except ε α} (h : succeeds x = true) :
    ∃ d, x = Except.ok d := by
  cases x with
  | ok d => exact ⟨d, rfl⟩
  | error e => simp [succeeds] at h

theorem processMatch_ok_eq {m : MatchModals} {d : MatchData}
    (h : processMatch m = Except.ok d) : d = matchRecord m := by
  cases h1 : m.openInfo with
  | some e => simp [processMatch, h1] at h
  | none =>
    cases h2 : m.openRef with
    | some e => simp [processMatch, h1, h2] at h
    | none =>
      cases h3 : m.openVenue with
      | some e => simp [processMatch, h1, h2, h3] at h
      | none =>
        simp only [processMatch, h1, h2, h3] at h
        cases h
        rfl

theorem scrapeLoop_records_eq (cb : Bool) (t : Nat) :
    ∀ (ms : List MatchModals) (i : Nat),
      (scrapeLoop cb t ms i).records =
        (ms.filter fun m => succeeds (processMatch m)).map matchRecord := by
  intro ms
  induction ms with
  | nil => intro i; simp [scrapeLoop]
  | cons m rest ih =>
    intro i
    cases hp : processMatch m with
    | ok d =>
      have hd := processMatch_ok_eq hp
      simp [scrapeLoop, hp, succeeds, ih (i + 1), hd]
    | error e =>
      simp [scrapeLoop, hp, succeeds, ih (i + 1)]

theorem scrapeLoop_calls_len (t : Nat) :
    ∀ (ms : List MatchModals) (i : Nat),
      (scrapeLoop true t ms i).calls.length =
        (ms.filter fun m => succeeds (processMatch m)).length := by
  intro ms
  induction ms with
  | nil => intro i; simp [scrapeLoop]
  | cons m rest ih =>
    intro i
    cases hp : processMatch m with
    | ok d => simp [scrapeLoop, hp, succeeds, ih (i + 1)]
    | error e => simp [scrapeLoop, hp, succeeds, ih (i + 1)]

theorem scrapeLoop_logs_len (cb : Bool) (t : Nat) :
    ∀ (ms : List MatchModals) (i : Nat),
      (scrapeLoop cb t ms i).logs.length =
        (ms.filter fun m => ! succeeds (processMatch m)).length := by
  intro ms
  induction ms with
  | nil => intro i; simp [scrapeLoop]
  | cons m rest ih =>
    intro i
    cases hp : processMatch m with
    | ok d => simp [scrapeLoop, hp, succeeds, ih (i + 1)]
    | error e => simp [scrapeLoop, hp, succeeds, ih (i + 1)]

theorem filter_eq_eraseIdx_of_single_fail {α : Type} (P : α → Bool) :
    ∀ (ms : List α) (k : Nat) (hk : k < ms.length),
      (∀ x ∈ ms.eraseIdx k, P x = true) → P (ms.get ⟨k, hk⟩) = false →
      ms.filter P = ms.eraseIdx k := by
  intro ms
  induction ms with
  | nil => intro k hk; exact absurd hk (by simp)
  | cons m rest ih =>
    intro k hk hall hbad
    cases k with
    | zero =>
      have hm : P m = false := hbad
      have hrest : rest.filter P = rest :=
        List.filter_eq_self.mpr fun x hx => hall x (by simpa using hx)
      simp [List.filter_cons, hm, hrest]
    | succ k' =>
      have hm : P m = true := hall m (by simp)
      have hk' : k' < rest.length := by simpa using hk
      have := ih k' hk'
        (fun x hx => hall x
          (by simp only [List.eraseIdx_cons_succ, List.mem_cons]; exact Or.inr hx))
        (by simpa using hbad)
      simp [List.filter_cons, hm, this]

theorem filter_not_of_single_fail {α : Type} (P : α → Bool) :
    ∀ (ms : List α) (k : Nat) (hk : k < ms.length),
      (∀ x ∈ ms.eraseIdx k, P x = true) → P (ms.get ⟨k, hk⟩) = false →
      (ms.filter fun x => ! P x).length = 1 := by
  intro ms
  induction ms with
  | nil => intro k hk; exact absurd hk (by simp)
  | cons m rest ih =>
    intro k hk hall hbad
    cases k with
    | zero =>
      have hm : P m = false := hbad
      have hrest : (rest.filter fun x => ! P x) = [] := by
        rw [List.filter_eq_nil_iff]
        intro x hx
        simp [hall x (by simpa using hx)]
      simp [List.filter_cons, hm, hrest]
    | succ k' =>
      have hm : P m = true := hall m (by simp)
      have hk' : k' < rest.length := by simpa using hk
      have := ih k' hk'
        (fun x hx => hall x
          (by simp only [List.eraseIdx_cons_succ, List.mem_cons]; exact Or.inr hx))
        (by simpa using hbad)
      simp [List.filter_cons, hm, this]

theorem scrapeLoop_calls_all_ok (t : Nat) :
    ∀ (ms : List MatchModals) (i : Nat),
      (∀ x ∈ ms, succeeds (processMatch x) = true) →
      (scrapeLoop true t ms i).calls.map (fun c => c.1) = List.range' (i + 1) ms.length := by
  intro ms
  induction ms with
  | nil => intro i _; simp [scrapeLoop]
  | cons m rest ih =>
    intro i hall
    obtain ⟨d, hd⟩ := succeeds_ok (hall m (by simp))
    simp [scrapeLoop, hd, ih (i + 1) fun x hx => hall x (by simp [hx]), List.range'_succ]

theorem scrapeLoop_calls_single_fail (t : Nat) :
    ∀ (ms : List MatchModals) (i k K : Nat) (hk : k < ms.length),
      K = i + k + 1 →
      (∀ x ∈ ms.eraseIdx k, succeeds (processMatch x) = true) →
      succeeds (processMatch (ms.get ⟨k, hk⟩)) = false →
      (scrapeLoop true t ms i).calls.map (fun c => c.1) =
        (List.range' (i + 1) ms.length).filter (fun j => j ≠ K) := by
  intro ms
  induction ms with
  | nil => intro i k K hk; exact absurd hk (by simp)
  | cons m rest ih =>
    intro i k K hk hK hall hbad
    cases k with
    | zero =>
      have hbad0 : succeeds (processMatch m) = false := by simpa using hbad
      have hKi : K = i + 1 := by omega
      subst hKi
      cases hp : processMatch m with
      | ok d => rw [hp] at hbad0; simp [succeeds] at hbad0
      | error e =>
        have hrest : ∀ x ∈ rest, succeeds (processMatch x) = true :=
          fun x hx => hall x (by simpa using hx)
        simp [scrapeLoop, hp, scrapeLoop_calls_all_ok t rest (i + 1) hrest,
          List.range'_succ, List.filter_cons]
        symm
        apply List.filter_eq_self.mpr
        intro a ha
        have hb := List.mem_range'_1.mp ha
        simp
        omega
    | succ k' =>
      obtain ⟨d, hd⟩ := succeeds_ok (hall m (by simp))
      have hk' : k' < rest.length := by simpa using hk
      have hrec := ih (i + 1) k' K hk' (by omega)
        (fun x hx => hall x
          (by simp only [List.eraseIdx_cons_succ, List.mem_cons]; exact Or.inr hx))
        (by simpa using hbad)
      have hne : (i + 1) ≠ K := by omega
      simp [scrapeLoop, hd, hrec, List.range'_succ, List.filter_cons, hne]

/-! ## Claim theorems -/

/-- C9: the kickoff string "Samstag · 08.11.2025 · 13:00 Uhr" parses to the
date "08.11.2025" (second part stripped) and the time "13:00" (third part
with "Uhr" removed and stripped). -/
theorem parse_anpfiff_scenario :
    parse_anpfiff "Samstag · 08.11.2025 · 13:00 Uhr" = ("08.11.2025", "13:00") := rfl

/-- C10: on every input whose split on the middle dot yields fewer than three
parts, `parse_anpfiff` never raises and returns the original string paired
with the empty string. -/
theorem parse_anpfiff_short_input (s : String)
    (h : (pySplitSep "·" s).length < 3) : parse_anpfiff s = (s, "") := by
  rcases hl : pySplitSep "·" s with _ | ⟨p0, _ | ⟨p1, _ | ⟨p2, rest⟩⟩⟩
  · simp [parse_anpfiff, hl]
  · simp [parse_anpfiff, hl]
  · simp [parse_anpfiff, hl]
  · rw [hl] at h
    simp at h
    omega

/-- C10 witness: "Samstag 13:00" has no middle dot, so it comes back
unchanged with an empty time. -/
theorem parse_anpfiff_short_input_witness :
    (pySplitSep "·" "Samstag 13:00").length < 3 ∧
      parse_anpfiff "Samstag 13:00" = ("Samstag 13:00", "") :=
  ⟨by decide, parse_anpfiff_short_input "Samstag 13:00" (by decide)⟩

/-- C8: the referee header "SRA 1 Jan Vogt" parses to role "SRA 1" and name
"Jan Vogt" (the numeral is concatenated into the role), and the header
"SR Louis Gaudes" parses to role "SR" and name "Louis Gaudes". -/
theorem referee_header_scenarios :
    parseRefereeHeader "SRA 1 Jan Vogt" = some ("SRA 1", "Jan Vogt") ∧
      parseRefereeHeader "SR Louis Gaudes" = some ("SR", "Louis Gaudes") :=
  ⟨rfl, rfl⟩

/-- C4: `login` classifies the post-submit page by three ordered checks:
off the auth sub-domain is success regardless of the other signals; else a
visible error message fails with the portal's text; else a still-visible
password field fails generically; else the login counts as successful. -/
theorem login_triage (st : LoginPageState) :
    (strContains st.currentUrl "auth.dfbnet.org" = false →
      classify_login_response st = Except.ok ()) ∧
    (∀ t, strContains st.currentUrl "auth.dfbnet.org" = true →
      st.errorCheck = ErrCheck.visibleText t →
      classify_login_response st =
        Except.error (LoginFailure.credsInvalid (some ("DFBnet meldet: " ++ t)))) ∧
    (strContains st.currentUrl "auth.dfbnet.org" = true →
      (∀ t, st.errorCheck ≠ ErrCheck.visibleText t) →
      st.passwordVisible = true →
      classify_login_response st = Except.error (LoginFailure.credsInvalid none)) ∧
    (strContains st.currentUrl "auth.dfbnet.org" = true →
      (∀ t, st.errorCheck ≠ ErrCheck.visibleText t) →
      st.passwordVisible = false →
      classify_login_response st = Except.ok ()) := by
  refine ⟨fun h => ?_, fun t h he => ?_, fun h hne hpw => ?_, fun h hne hpw => ?_⟩
  · simp [classify_login_response, h]
  · simp [classify_login_response, check_error_wrapped, check_error_message, h, he]
  · cases hc : st.errorCheck with
    | notVisible =>
        simp [classify_login_response, check_error_wrapped, check_error_message, h, hc, hpw]
    | visibleText t => exact absurd hc (hne t)
    | checkRaised e =>
        simp [classify_login_response, check_error_wrapped, check_error_message, h, hc, hpw]
  · cases hc : st.errorCheck with
    | notVisible =>
        simp [classify_login_response, check_error_wrapped, check_error_message, h, hc, hpw]
    | visibleText t => exact absurd hc (hne t)
    | checkRaised e =>
        simp [classify_login_response, check_error_wrapped, check_error_message, h, hc, hpw]

/-- C4 witness: a page that left the auth sub-domain classifies as success
even though the password field is still visible. -/
theorem login_triage_witness :
    classify_login_response ⟨"https://www.dfbnet.org/sria", ErrCheck.notVisible, true⟩ =
      Except.ok () :=
  (login_triage ⟨"https://www.dfbnet.org/sria", ErrCheck.notVisible, true⟩).1 (by decide)

/-- C3: with credentials present and the form steps succeeding, an
invalid-credentials response (still on the auth sub-domain and showing an
error message or still showing the password field) makes `login` raise
`DFBCredentialsInvalidError`, carrying the portal's error text when the
error element was visible and the generic default otherwise; it never
silently succeeds. -/
theorem login_invalid_credentials_raises (env : LoginEnv)
    (hu : env.username ≠ "") (hp : env.password ≠ "")
    (hf : env.formSteps = Except.ok ())
    (ha : strContains env.afterSubmit.currentUrl "auth.dfbnet.org" = true)
    (hneg : (∃ t, env.afterSubmit.errorCheck = ErrCheck.visibleText t) ∨
      env.afterSubmit.passwordVisible = true) :
    ∃ m, login env = Except.error (LoginFailure.credsInvalid m) ∧
      (∀ t, env.afterSubmit.errorCheck = ErrCheck.visibleText t →
        m = some ("DFBnet meldet: " ++ t)) ∧
      ((∀ t, env.afterSubmit.errorCheck ≠ ErrCheck.visibleText t) → m = none) := by
  cases hc : env.afterSubmit.errorCheck with
  | visibleText t =>
      refine ⟨some ("DFBnet meldet: " ++ t), ?_, ?_, ?_⟩
      · simp [login, hu, hp, hf, classify_login_response, check_error_wrapped,
          check_error_message, ha, hc]
      · intro t' ht'
        cases ht'
        rfl
      · intro hall
        exact absurd rfl (hall t)
  | notVisible =>
      have hpw : env.afterSubmit.passwordVisible = true := by
        rcases hneg with ⟨t, ht⟩ | hpw
        · rw [hc] at ht; cases ht
        · exact hpw
      refine ⟨none, ?_, ?_, fun _ => rfl⟩
      · simp [login, hu, hp, hf, classify_login_response, check_error_wrapped,
          check_error_message, ha, hc, hpw]
      · intro t' ht'
        cases ht'
  | checkRaised e =>
      have hpw : env.afterSubmit.passwordVisible = true := by
        rcases hneg with ⟨t, ht⟩ | hpw
        · rw [hc] at ht; cases ht
        · exact hpw
      refine ⟨none, ?_, ?_, fun _ => rfl⟩
      · simp [login, hu, hp, hf, classify_login_response, check_error_wrapped,
          check_error_message, ha, hc, hpw]
      · intro t' ht'
        cases ht'

/-- C3 witness: wrong credentials on the auth sub-domain with the portal's
error banner visible make `login` raise with the portal's text. -/
theorem login_invalid_credentials_raises_witness :
    ∃ m, login ⟨"user", "geheim", Except.ok (),
        ⟨"https://auth.dfbnet.org/login", ErrCheck.visibleText "Kennung oder Passwort falsch",
         true⟩⟩ = Except.error (LoginFailure.credsInvalid m) ∧
      (∀ t, ErrCheck.visibleText "Kennung oder Passwort falsch" = ErrCheck.visibleText t →
        m = some ("DFBnet meldet: " ++ t)) ∧
      ((∀ t, ErrCheck.visibleText "Kennung oder Passwort falsch" ≠ ErrCheck.visibleText t) →
        m = none) :=
  login_invalid_credentials_raises
    ⟨"user", "geheim", Except.ok (),
      ⟨"https://auth.dfbnet.org/login", ErrCheck.visibleText "Kennung oder Passwort falsch",
       true⟩⟩
    (by decide) (by decide) rfl (by decide)
    (Or.inl ⟨"Kennung oder Passwort falsch", rfl⟩)

/-- C6 counterexample: after a partial start (driver running, browser launch
failed) the `with`-statement never runs `__exit__`, and `stop` on that state
releases nothing, so the session is not torn down — refuting that teardown
after a partial start still releases the acquired resources. -/
theorem partial_start_teardown_cex :
    withScraper ⟨true, false⟩ (Except.ok ()) =
        (⟨true, false⟩, some "chromium launch fehlgeschlagen") ∧
      stop ⟨true, false⟩ = ⟨true, false⟩ ∧
      (stop ⟨true, false⟩).playwrightRunning = true :=
  ⟨rfl, rfl, rfl⟩

/-- C6 amended: when `start` fully succeeds, `stop` runs on every exit path
of the scoped body — normal return or exception — and leaves both resources
released; but `stop` is a no-op whenever no browser handle exists, so a
partial start releases nothing. -/
theorem scoped_teardown (env : SessionEnv) (body : Except String Unit)
    (h1 : env.playwrightStartOk = true) (h2 : env.browserLaunchOk = true) :
    (withScraper env body).1 = ⟨false, false⟩ ∧
      (∀ e, body = Except.error e → (withScraper env body).2 = some e) ∧
      (body = Except.ok () → (withScraper env body).2 = none) ∧
      (∀ st : ScraperState, st.browserRunning = false → stop st = st) := by
  refine ⟨?_, ?_, ?_, fun st hst => by simp [stop, hst]⟩
  · simp [withScraper, start, stop, h1, h2]
    cases body <;> simp
  · intro e he
    simp [withScraper, start, stop, h1, h2, he]
  · intro he
    simp [withScraper, start, stop, h1, h2, he]

/-- C6 witness: a fully started session with a normally returning body ends
with both resources released. -/
theorem scoped_teardown_witness :
    (withScraper ⟨true, true⟩ (Except.ok ())).1 = ⟨false, false⟩ :=
  (scoped_teardown ⟨true, true⟩ (Except.ok ()) rfl rfl).1

/-- C5: with the three modal opens succeeding, the per-match record is
assembled from three independent total extractions: an internal failure of
the venue extractor degrades only `spielstaette` to the empty dictionary and
leaves the already-extracted `spiel_info` and referee list untouched; and a
venue modal missing the optional `platz_typ` field yields the same name and
address with `platz_typ` simply omitted. -/
theorem subextractions_independent :
    (∀ m : MatchModals, m.openInfo = none → m.openRef = none → m.openVenue = none →
      processMatch m = Except.ok (matchRecord m) ∧
      (∀ e, extract_venue_core m.venue = Except.error e →
        (matchRecord m).spielstaette = VenueDict.empty ∧
        (matchRecord m).spiel_info = extract_match_info_from_modal m.info ∧
        (matchRecord m).schiedsrichter = extract_referee_contacts m.refReady m.refItems)) ∧
    (∀ (vm : VenueModal) (d : VenueDict), extract_venue_core vm = Except.ok d →
      extract_venue_core
          ⟨vm.ready, vm.subtitle, vm.geotagSpan, vm.addressDiv, vm.addressLines, none⟩ =
        Except.ok ⟨d.name, d.adresse, none⟩) := by
  constructor
  · intro m h1 h2 h3
    refine ⟨by simp [processMatch, h1, h2, h3, matchRecord], fun e he => ⟨?_, rfl, rfl⟩⟩
    simp [matchRecord, extract_venue_info, he]
  · intro vm d h
    obtain ⟨r, sub, geo, ad, lines, pt⟩ := vm
    cases r with
    | some e => simp [extract_venue_core] at h
    | none =>
      rcases h1 : readField sub with e1 | n1
      · simp [extract_venue_core, h1] at h
      · rcases h2 : venueName n1 geo with e2 | n
        · simp [extract_venue_core, h1, h2] at h
        · rcases h3 : venueAddress ad lines with e3 | a
          · simp [extract_venue_core, h1, h2, h3] at h
          · rcases h4 : readField pt with e4 | p
            · simp [extract_venue_core, h1, h2, h3, h4] at h
            · simp only [extract_venue_core, h1, h2, h3, h4] at h
              cases h
              simp only [extract_venue_core, h1, h2, h3]
              simp [readField]

/-- C5 witness: a match whose opens succeed and whose modals are empty yields
the record of three empty sub-structures with no exception. -/
theorem subextractions_independent_witness :
    processMatch okModals = Except.ok (matchRecord okModals) :=
  (subextractions_independent.1 okModals rfl rfl rfl).1

/-- C7 counterexample: on a page where no match entry ever becomes visible,
the enumeration wait times out and `scrape_all_matches` propagates the
exception instead of returning an empty list. -/
theorem scrape_zero_entries_raises_cex :
    scrape_all_matches ⟨false, []⟩ true =
      Except.error "Fehler beim Sammeln der Spiele: Timeout" := rfl

/-- C7 amended: when the enumeration itself returns a count of zero (the
first-item wait passed but the container query finds none), the batch returns
an empty list and fires the progress callback exactly once with (0, 0, ...);
but on a page where no entry ever becomes visible the enumeration raises and
the error propagates. -/
theorem scrape_zero_count_empty :
    scrape_all_matches ⟨true, []⟩ true =
      Except.ok ⟨[], [(0, 0, "Scraping gestartet...")], []⟩ := rfl

/-- C1: when exactly one match k raises during its per-match extraction and
all other matches succeed, `scrape_all_matches` logs exactly one failure,
skips k, and returns the N-1 records of the other matches in index order;
the exception never propagates (the run still returns a result). -/
theorem scrape_single_failure_returns_rest (p : ScrapePage) (cb : Bool) (k : Nat)
    (hk : k < p.matchList.length) (hfa : p.firstMatchAppears = true)
    (hall : ∀ x ∈ p.matchList.eraseIdx k, succeeds (processMatch x) = true)
    (hbad : succeeds (processMatch (p.matchList.get ⟨k, hk⟩)) = false) :
    ∃ out, scrape_all_matches p cb = Except.ok out ∧
      out.records = (p.matchList.eraseIdx k).map matchRecord ∧
      out.records.length = p.matchList.length - 1 ∧
      out.logs.length = 1 := by
  have hga : get_all_matches p = Except.ok p.matchList.length := by
    simp [get_all_matches, hfa]
  refine ⟨⟨(scrapeLoop cb p.matchList.length p.matchList 0).records,
      (if cb then [(0, p.matchList.length, "Scraping gestartet...")] else []) ++
        (scrapeLoop cb p.matchList.length p.matchList 0).calls,
      (scrapeLoop cb p.matchList.length p.matchList 0).logs⟩,
    by simp only [scrape_all_matches, hga], ?_, ?_, ?_⟩
  · rw [scrapeLoop_records_eq,
      filter_eq_eraseIdx_of_single_fail (fun m => succeeds (processMatch m))
        p.matchList k hk hall hbad]
  · rw [scrapeLoop_records_eq,
      filter_eq_eraseIdx_of_single_fail (fun m => succeeds (processMatch m))
        p.matchList k hk hall hbad, List.length_map]
    have := List.length_eraseIdx_add_one hk
    omega
  · rw [scrapeLoop_logs_len,
      filter_not_of_single_fail (fun m => succeeds (processMatch m))
        p.matchList k hk hall hbad]

/-- C1 witness: a two-match page whose first match raises on the first modal
open yields exactly the second match's record plus one log line. -/
theorem scrape_single_failure_returns_rest_witness :
    ∃ out, scrape_all_matches ⟨true, [badModals, okModals]⟩ true = Except.ok out ∧
      out.records = (([badModals, okModals] : List MatchModals).eraseIdx 0).map matchRecord ∧
      out.records.length = ([badModals, okModals] : List MatchModals).length - 1 ∧
      out.logs.length = 1 :=
  scrape_single_failure_returns_rest ⟨true, [badModals, okModals]⟩ true 0
    (by decide) rfl
    (by intro x hx; simp [List.eraseIdx] at hx; subst hx; rfl)
    rfl

/-- C2 counterexample: on a two-match page whose first match raises, the
callback currents are 0 then 2 — the invocation for the failed match is
skipped — and not the claimed 0, 1, 2 (initial call plus one call per match
with current running 1 to N). -/
theorem progress_callback_skipped_cex :
    (scrape_all_matches ⟨true, [badModals, okModals]⟩ true).map
        (fun out => out.calls.map fun c => c.1) = Except.ok [0, 2] ∧
      ([0, 2] : List Nat) ≠ [0, 1, 2] := by
  constructor
  · rfl
  · decide

/-- C2 amended: with a callback supplied and exactly one failing match k out
of N, the callback fires once before the loop with current 0 and once after
each successfully completed match with current i+1 — the invocation of the
failing match is skipped — so it fires N times in total with strictly
increasing currents, namely 0 and 1..N with k+1 omitted. -/
theorem progress_callback_characterisation (p : ScrapePage) (k : Nat)
    (hk : k < p.matchList.length) (hfa : p.firstMatchAppears = true)
    (hall : ∀ x ∈ p.matchList.eraseIdx k, succeeds (processMatch x) = true)
    (hbad : succeeds (processMatch (p.matchList.get ⟨k, hk⟩)) = false) :
    ∃ out, scrape_all_matches p true = Except.ok out ∧
      out.calls.map (fun c => c.1) =
        0 :: (List.range' 1 p.matchList.length).filter (fun j => j ≠ k + 1) ∧
      out.calls.length = p.matchList.length ∧
      List.Pairwise (· < ·) (out.calls.map fun c => c.1) := by
  have hga : get_all_matches p = Except.ok p.matchList.length := by
    simp [get_all_matches, hfa]
  have hcalls := scrapeLoop_calls_single_fail p.matchList.length p.matchList 0 k (k + 1)
    hk (by omega) hall hbad
  refine ⟨⟨(scrapeLoop true p.matchList.length p.matchList 0).records,
      (0, p.matchList.length, "Scraping gestartet...") ::
        (scrapeLoop true p.matchList.length p.matchList 0).calls,
      (scrapeLoop true p.matchList.length p.matchList 0).logs⟩,
    by simp only [scrape_all_matches, hga]; rfl, ?_, ?_, ?_⟩
  · rw [List.map_cons, hcalls]
  · rw [List.length_cons, scrapeLoop_calls_len,
      filter_eq_eraseIdx_of_single_fail (fun m => succeeds (processMatch m))
        p.matchList k hk hall hbad]
    have := List.length_eraseIdx_add_one hk
    omega
  · rw [List.map_cons, hcalls]
    refine List.Pairwise.cons ?_ ?_
    · intro a ha
      have hmem := (List.mem_filter.mp ha).1
      have hb := List.mem_range'_1.mp hmem
      omega
    · exact List.Pairwise.sublist (List.filter_sublist (List.range' 1 p.matchList.length))
        (List.pairwise_lt_range' 1 p.matchList.length)

/-- C2 amended witness: the two-match page with the first match failing fires
the callback with currents 0 and 2, twice in total, strictly increasing. -/
theorem progress_callback_characterisation_witness :
    ∃ out, scrape_all_matches ⟨true, [badModals, okModals]⟩ true = Except.ok out ∧
      out.calls.map (fun c => c.1) =
        0 :: (List.range' 1 ([badModals, okModals] : List MatchModals).length).filter
          (fun j => j ≠ 0 + 1) ∧
      out.calls.length = ([badModals, okModals] : List MatchModals).length ∧
      List.Pairwise (· < ·) (out.calls.map fun c => c.1) :=
  progress_callback_characterisation ⟨true, [badModals, okModals]⟩ 0
    (by decide) rfl
    (by intro x hx; simp [List.eraseIdx] at hx; subst hx; rfl)
    rfl

end DFB
